import Mathlib

/-!
Shallow embedding of `src/server.js` (a small Express backend over SQLite).

The embedding models:
  * the five-table SQLite store as lists of rows plus autoincrement counters
    (`DBState`);
  * the express-validator chains (`consultationValidation`,
    `newsletterValidation`) as functions from a request body to the list of
    error messages that `errors.array()` would report;
  * the four JSON endpoints as pure functions from a store state, a request
    body and an engine outcome (`DbOutcome`, standing for the `err` argument
    of the `db.run` / `db.all` callback) to the new store state, the HTTP
    response and the list of notifications handed to the mail layer;
  * the fire-and-forget mail functions (`sendConsultationConfirmation`,
    `sendAdminNotification`, `sendWelcomeEmail`) as a dispatch step driven by
    a delivery oracle; each of them wraps `transporter.sendMail` in
    `try/catch`, so a delivery failure only produces a log entry.

Optional JSON body fields are `Option String` (`none` = the key is absent /
`undefined`); JS truthiness of a string (`if (status)`, `anniversary || null`)
is "present and non-empty".
-/

/-- JS truthiness of an optional string value: `undefined` and `''` are falsy,
every other string is truthy. -/
def jsTruthy : Option String → Bool
  | none => false
  | some s => !s.isEmpty

/-- Model of `anniversary || null` in the consultation insert: an absent or
empty value is stored as SQL `NULL`. -/
def jsOrNull (o : Option String) : Option String :=
  if jsTruthy o then o else none

/-- Model of the external `validator.js` email check behind
`body('email').isEmail()` (simplified to its observable core: exactly one
`@`, non-empty local part, non-empty domain that contains a dot neither at
its start nor at its end). The source delegates this predicate to the
library; none of the claims depend on its fine structure, only on the
pipeline's reaction to its verdict. -/
def isEmail (s : String) : Bool :=
  let cs := s.toList
  let lp := cs.takeWhile (fun c => c ≠ '@')
  let dom := (cs.dropWhile (fun c => c ≠ '@')).drop 1
  cs.countP (fun c => c = '@') == 1 &&
    !lp.isEmpty && !dom.isEmpty && dom.contains '.' &&
    dom.head? != some '.' && dom.getLast? != some '.'

/-- Result of `body('email').isEmail()` on an optional field: a missing field
fails the check. -/
def emailFieldOk : Option String → Bool
  | none => false
  | some s => isEmail s

/-- Result of `body(f).notEmpty()` on an optional field: a missing field or an
empty string fails the check. -/
def notEmptyFieldOk : Option String → Bool
  | none => false
  | some s => !s.isEmpty

/-- JSON body of `POST /api/consultation`. The handler destructures exactly
seven keys from `req.body`; `extra` carries every other key a client may have
sent (for example `status`, `id` or `created_at`), which the handler never
reads. -/
structure ConsultationBody where
  relationshipType : Option String
  names : Option String
  email : Option String
  phone : Option String
  anniversary : Option String
  preferences : Option String
  budget : Option String
  extra : List (String × String)
  deriving Repr, DecidableEq

/-- JSON body of `POST /api/newsletter`: the handler reads `email` and
`source` (defaulting to `'newsletter'`), `extra` is every other key. -/
structure NewsletterBody where
  email : Option String
  source : Option String
  extra : List (String × String)
  deriving Repr, DecidableEq

/-- Row of the `consultations` table (schema lines 46-58 of `server.js`). -/
structure ConsultationRow where
  id : Nat
  relationship_type : String
  names : String
  email : String
  phone : String
  anniversary : Option String
  preferences : String
  budget : String
  status : String
  created_at : Nat
  updated_at : Nat
  deriving Repr, DecidableEq

/-- Row of the `phone_numbers` table (schema lines 72-83 of `server.js`). -/
structure PhoneNumberRow where
  id : Nat
  number : String
  pattern_type : Option String
  customer_id : Option Nat
  partner_number_id : Option Nat
  status : String
  purchase_price : Option Int
  monthly_fee : Option Int
  created_at : Nat
  deriving Repr, DecidableEq

/-- Row of the `email_subscribers` table (schema lines 97-103 of
`server.js`). -/
structure SubscriberRow where
  id : Nat
  email : String
  source : String
  status : String
  created_at : Nat
  deriving Repr, DecidableEq

/-- The SQLite store: the tables the covered endpoints touch, plus the
`AUTOINCREMENT` counters that produce `this.lastID`. SQLite hands out
positive row ids; a freshly created database starts both counters at 1. -/
structure DBState where
  consultations : List ConsultationRow
  phone_numbers : List PhoneNumberRow
  email_subscribers : List SubscriberRow
  nextConsultationId : Nat
  nextSubscriberId : Nat
  deriving Repr, DecidableEq

/-- Empty store as created by `initializeDatabase` on a fresh file. -/
def DBState.init : DBState :=
  { consultations := []
    phone_numbers := []
    email_subscribers := []
    nextConsultationId := 1
    nextSubscriberId := 1 }

/-- Outcome of the storage engine for one `db.run` call: the `err` argument
of the callback is either `null` (`ok`) or an engine error (`fail`). -/
inductive DbOutcome
  | ok
  | fail
  deriving Repr, DecidableEq

/-- HTTP responses the handlers emit. -/
inductive ApiResponse
  | validationFailure (errors : List String)
  | dbFailure
  | consultationSuccess (consultationId : Nat)
  | newsletterSuccess
  deriving Repr, DecidableEq

/-- Status code attached to each response by the handlers (`res.status(400)`,
`res.status(500)`, default 200). -/
def ApiResponse.statusCode : ApiResponse → Nat
  | .validationFailure _ => 400
  | .dbFailure => 500
  | .consultationSuccess _ => 200
  | .newsletterSuccess => 200

/-- Notifications handed to the mail layer. The admin alert carries the raw
`preferences` variable, which may still be `undefined` at that point. -/
inductive Notification
  | confirmation (email names : String) (consultationId : Nat)
  | adminAlert (consultationId : Nat)
      (relationshipType names email phone budget : String)
      (preferences : Option String)
  | welcome (email : String)
  deriving Repr, DecidableEq

/-- Model of the validator chain `consultationValidation` (lines 127-133):
all five validators run, and `errors.array()` reports every violation in
chain order, not only the first. -/
def consultationValidation (b : ConsultationBody) : List String :=
  (if notEmptyFieldOk b.relationshipType then [] else ["Relationship type is required"]) ++
  (if notEmptyFieldOk b.names then [] else ["Names are required"]) ++
  (if emailFieldOk b.email then [] else ["Valid email is required"]) ++
  (if notEmptyFieldOk b.phone then [] else ["Phone number is required"]) ++
  (if notEmptyFieldOk b.budget then [] else ["Budget selection is required"])

/-- Model of the newsletter validator chain (line 269). -/
def newsletterValidation (b : NewsletterBody) : List String :=
  if emailFieldOk b.email then [] else ["Valid email is required"]

/-- Row written by the `INSERT INTO consultations` statement (lines 164-178):
the seven bound parameters — with `anniversary || null` and
`preferences || ''` — plus the schema defaults `status = 'pending'` and
`created_at = updated_at = CURRENT_TIMESTAMP`, under the next
autoincrement id. -/
def newConsultationRow (db : DBState) (now : Nat) (b : ConsultationBody) :
    ConsultationRow :=
  { id := db.nextConsultationId
    relationship_type := b.relationshipType.getD ""
    names := b.names.getD ""
    email := b.email.getD ""
    phone := b.phone.getD ""
    anniversary := jsOrNull b.anniversary
    preferences := b.preferences.getD ""
    budget := b.budget.getD ""
    status := "pending"
    created_at := now
    updated_at := now }

/-- Handler of `POST /api/consultation` (lines 143-217): validate, then run
the parameterized `INSERT INTO consultations`; on engine failure answer 500
and hand nothing to the mail layer; on success append the row, queue the
customer confirmation and the admin alert, and answer 200 with
`this.lastID`. -/
def postConsultation (db : DBState) (now : Nat) (b : ConsultationBody)
    (o : DbOutcome) : DBState × ApiResponse × List Notification :=
  let errs := consultationValidation b
  if errs.isEmpty then
    match o with
    | .fail => (db, .dbFailure, [])
    | .ok =>
        let row := newConsultationRow db now b
        ({ db with
            consultations := db.consultations ++ [row]
            nextConsultationId := db.nextConsultationId + 1 },
         .consultationSuccess db.nextConsultationId,
         [.confirmation row.email row.names row.id,
          .adminAlert row.id row.relationship_type row.names row.email
            row.phone row.budget b.preferences])
  else (db, .validationFailure errs, [])

/-- Effect of `INSERT OR IGNORE INTO email_subscribers (email, source)`:
the `UNIQUE` constraint on `email` turns a duplicate into a silent no-op. -/
def insertOrIgnoreSubscriber (db : DBState) (now : Nat) (email source : String) :
    DBState :=
  if db.email_subscribers.any (fun r => r.email == email) then db
  else
    { db with
        email_subscribers := db.email_subscribers ++
          [{ id := db.nextSubscriberId
             email := email
             source := source
             status := "active"
             created_at := now }]
        nextSubscriberId := db.nextSubscriberId + 1 }

/-- Handler of `POST /api/newsletter` (lines 268-312): validate, run the
insert-or-ignore, and — whenever the engine reports no error, duplicate or
not — queue the welcome email and answer success. -/
def postNewsletter (db : DBState) (now : Nat) (b : NewsletterBody)
    (o : DbOutcome) : DBState × ApiResponse × List Notification :=
  let errs := newsletterValidation b
  if errs.isEmpty then
    match o with
    | .fail => (db, .dbFailure, [])
    | .ok =>
        let email := b.email.getD ""
        let source := b.source.getD "newsletter"
        (insertOrIgnoreSubscriber db now email source, .newsletterSuccess,
         [.welcome email])
  else (db, .validationFailure errs, [])

/-- ASCII case folding used by SQLite `LIKE` (case-insensitive on A-Z). -/
def likeFold (c : Char) : Char :=
  if 'A' ≤ c ∧ c ≤ 'Z' then Char.ofNat (c.toNat + 32) else c

/-- SQLite `LIKE` matching over character lists: `%` matches any sequence
(equivalently, the rest of the pattern must match some suffix of the
string), `_` matches any single character, other characters match up to
ASCII case. -/
def likeMatchL : List Char → List Char → Bool
  | [], s => s.isEmpty
  | p :: ps, s =>
      if p = '%' then s.tails.any (likeMatchL ps)
      else
        match s with
        | [] => false
        | c :: s2 =>
            if p = '_' then likeMatchL ps s2
            else likeFold p == likeFold c && likeMatchL ps s2

/-- SQLite `LIKE` over strings: `sqlLike pat s` is `s LIKE pat`. -/
def sqlLike (pat s : String) : Bool :=
  likeMatchL pat.toList s.toList

/-- Handler of `GET /api/numbers/search` (lines 220-265): restrict to
`status = 'available'`, apply the truthy `pattern` and `area_code` filters
(`area_code` via `number LIKE '<area_code>%'`), then `LIMIT` (default 10). -/
def searchNumbers (db : DBState) (pattern area_code : Option String)
    (limit : Option Nat) : List PhoneNumberRow :=
  let rows := db.phone_numbers.filter (fun r =>
    r.status == "available" &&
    (if jsTruthy pattern then r.pattern_type == some (pattern.getD "") else true) &&
    (if jsTruthy area_code then sqlLike (area_code.getD "" ++ "%") r.number
     else true))
  rows.take (limit.getD 10)

/-- Ordering relation of `ORDER BY created_at DESC`. -/
def createdDesc (a b : ConsultationRow) : Prop :=
  b.created_at ≤ a.created_at

instance : DecidableRel createdDesc := fun a b =>
  inferInstanceAs (Decidable (b.created_at ≤ a.created_at))

instance : IsTotal ConsultationRow createdDesc :=
  ⟨fun a b => (Nat.le_total a.created_at b.created_at).symm⟩

instance : IsTrans ConsultationRow createdDesc :=
  ⟨fun _ _ _ hab hbc => Nat.le_trans hbc hab⟩

/-- Handler of `GET /api/admin/consultations` (lines 315-354): optional
truthy `status` filter, `ORDER BY created_at DESC`, then `LIMIT` (default 50)
and `OFFSET` (default 0). -/
def adminConsultations (db : DBState) (status : Option String)
    (limit offset : Option Nat) : List ConsultationRow :=
  let rows :=
    if jsTruthy status then
      db.consultations.filter (fun r => r.status == status.getD "")
    else db.consultations
  ((List.insertionSort createdDesc rows).drop (offset.getD 0)).take
    (limit.getD 50)

/-- Log entries produced by the mail functions: each of them logs a success
line, or catches the transport error and logs it. -/
inductive LogEntry
  | sent (n : Notification)
  | sendError (n : Notification)
  deriving Repr, DecidableEq

/-- Fire-and-forget dispatch of the queued notifications: the delivery oracle
decides whether `transporter.sendMail` succeeds; either way the only effect
is a log entry, because every mail function wraps the send in `try/catch`. -/
def dispatch (deliver : Notification → Bool) (ns : List Notification) :
    List LogEntry :=
  ns.map (fun n => if deliver n then .sent n else .sendError n)

/-- Full consultation request: handler, then notification dispatch. The
response and the store state are fixed before dispatch runs. -/
def runConsultation (db : DBState) (now : Nat) (b : ConsultationBody)
    (o : DbOutcome) (deliver : Notification → Bool) :
    DBState × ApiResponse × List LogEntry :=
  ((postConsultation db now b o).1,
   (postConsultation db now b o).2.1,
   dispatch deliver (postConsultation db now b o).2.2)

/-- Full newsletter request: handler, then notification dispatch. -/
def runNewsletter (db : DBState) (now : Nat) (b : NewsletterBody)
    (o : DbOutcome) (deliver : Notification → Bool) :
    DBState × ApiResponse × List LogEntry :=
  ((postNewsletter db now b o).1,
   (postNewsletter db now b o).2.1,
   dispatch deliver (postNewsletter db now b o).2.2)

/-- Number of subscriber rows stored for a given email. -/
def subscriberCount (db : DBState) (email : String) : Nat :=
  db.email_subscribers.countP (fun r => r.email == email)

/-! Concrete data used to instantiate the theorems below. -/

/-- Valid consultation body from the spec's concrete scenario. -/
def sampleBody : ConsultationBody :=
  { relationshipType := some "couple"
    names := some "Alice & Bob"
    email := some "a@example.com"
    phone := some "555-0100"
    anniversary := none
    preferences := none
    budget := some "premium"
    extra := [] }

/-- Invalid consultation body: `names` missing and `email` malformed. -/
def badBody : ConsultationBody :=
  { relationshipType := some "couple"
    names := none
    email := some "nope"
    phone := some "555-0100"
    anniversary := none
    preferences := none
    budget := some "premium"
    extra := [] }

/-- Valid newsletter body. -/
def sampleNewsletter : NewsletterBody :=
  { email := some "a@example.com", source := none, extra := [] }

/-- Store that already holds a subscriber row for `a@example.com`. -/
def dbWithSubscriber : DBState :=
  { DBState.init with
      email_subscribers :=
        [{ id := 1, email := "a@example.com", source := "newsletter"
           status := "active", created_at := 0 }]
      nextSubscriberId := 2 }

/-- Available phone number `515`. -/
def phone515 : PhoneNumberRow :=
  { id := 1, number := "515", pattern_type := none, customer_id := none
    partner_number_id := none, status := "available", purchase_price := none
    monthly_fee := none, created_at := 0 }

/-- Store holding only the available number `515`. -/
def dbPhone515 : DBState :=
  { DBState.init with phone_numbers := [phone515] }

/-- Two consultation rows with distinct creation times. -/
def rowEarly : ConsultationRow :=
  { id := 1, relationship_type := "couple", names := "A & B"
    email := "a@example.com", phone := "555-0100", anniversary := none
    preferences := "", budget := "premium", status := "pending"
    created_at := 5, updated_at := 5 }

/-- Later consultation row. -/
def rowLate : ConsultationRow :=
  { id := 2, relationship_type := "friends", names := "C & D"
    email := "c@example.com", phone := "555-0200", anniversary := none
    preferences := "", budget := "basic", status := "pending"
    created_at := 9, updated_at := 9 }

/-- Store holding the two consultation rows, earliest first. -/
def dbTwoConsultations : DBState :=
  { DBState.init with
      consultations := [rowEarly, rowLate]
      nextConsultationId := 3 }

/-! Claims. -/

/-- C3: when the consultation insert fails at the storage engine, the
response is the 500 database-failure response, the store is unchanged, and
no notification is handed to the mail layer. -/
theorem consultation_db_failure_is_500_without_notification
    (db : DBState) (now : Nat) (b : ConsultationBody)
    (hv : consultationValidation b = []) :
    postConsultation db now b .fail = (db, .dbFailure, []) ∧
    ApiResponse.dbFailure.statusCode = 500 := by
  refine ⟨?_, rfl⟩
  unfold postConsultation
  simp [hv]

/-- Witness for C3 at the spec's concrete valid submission. -/
theorem consultation_db_failure_is_500_without_notification_witness :
    consultationValidation sampleBody = [] ∧
    (postConsultation DBState.init 0 sampleBody .fail =
        (DBState.init, .dbFailure, []) ∧
      ApiResponse.dbFailure.statusCode = 500) :=
  ⟨by decide,
   consultation_db_failure_is_500_without_notification DBState.init 0
     sampleBody (by decide)⟩

/-- C5: the delivery oracle (which notifications succeed) never changes the
response or the stored state of a consultation or newsletter request, and
when the row was persisted the caller still receives the success response
even under an oracle that fails every delivery. -/
theorem notification_failure_never_changes_outcome
    (db : DBState) (now : Nat) (b : ConsultationBody) (nb : NewsletterBody)
    (o : DbOutcome) (f g : Notification → Bool) :
    (runConsultation db now b o f).2.1 = (runConsultation db now b o g).2.1 ∧
    (runConsultation db now b o f).1 = (runConsultation db now b o g).1 ∧
    (runNewsletter db now nb o f).2.1 = (runNewsletter db now nb o g).2.1 ∧
    (runNewsletter db now nb o f).1 = (runNewsletter db now nb o g).1 ∧
    (consultationValidation b = [] →
      (runConsultation db now b .ok f).2.1 =
        .consultationSuccess db.nextConsultationId) ∧
    (newsletterValidation nb = [] →
      (runNewsletter db now nb .ok f).2.1 = .newsletterSuccess) := by
  refine ⟨rfl, rfl, rfl, rfl, ?_, ?_⟩
  · intro hv
    unfold runConsultation postConsultation
    simp [hv]
  · intro hv
    unfold runNewsletter postNewsletter
    simp [hv]

/-- Witness for C5: under the oracle failing every delivery the responses and
states match those under the oracle delivering everything, and both requests
still answer success. -/
theorem notification_failure_never_changes_outcome_witness :
    (runConsultation DBState.init 0 sampleBody .ok (fun _ => false)).2.1 =
      (runConsultation DBState.init 0 sampleBody .ok (fun _ => true)).2.1 ∧
    (runConsultation DBState.init 0 sampleBody .ok (fun _ => false)).1 =
      (runConsultation DBState.init 0 sampleBody .ok (fun _ => true)).1 ∧
    (runNewsletter DBState.init 0 sampleNewsletter .ok (fun _ => false)).2.1 =
      (runNewsletter DBState.init 0 sampleNewsletter .ok (fun _ => true)).2.1 ∧
    (runNewsletter DBState.init 0 sampleNewsletter .ok (fun _ => false)).1 =
      (runNewsletter DBState.init 0 sampleNewsletter .ok (fun _ => true)).1 ∧
    (runConsultation DBState.init 0 sampleBody .ok (fun _ => false)).2.1 =
      .consultationSuccess DBState.init.nextConsultationId ∧
    (runNewsletter DBState.init 0 sampleNewsletter .ok (fun _ => false)).2.1 =
      .newsletterSuccess := by
  have T := notification_failure_never_changes_outcome DBState.init 0
    sampleBody sampleNewsletter .ok (fun _ => false) (fun _ => true)
  exact ⟨T.1, T.2.1, T.2.2.1, T.2.2.2.1,
    T.2.2.2.2.1 (by decide), T.2.2.2.2.2 (by decide)⟩

/-- C7: number search with no filters and no explicit limit returns at most
10 rows, all of which have status `available`. -/
theorem search_default_limit_returns_available_only (db : DBState) :
    (searchNumbers db none none none).length ≤ 10 ∧
    ∀ r ∈ searchNumbers db none none none, r.status = "available" := by
  constructor
  · unfold searchNumbers
    exact List.length_take_le _ _
  · intro r hr
    unfold searchNumbers at hr
    have hmem := List.mem_filter.1 (List.mem_of_mem_take hr)
    have hp := hmem.2
    simp [jsTruthy] at hp
    exact hp

/-- Witness for C7 on the one-number store. -/
theorem search_default_limit_returns_available_only_witness :
    (searchNumbers dbPhone515 none none none).length ≤ 10 ∧
    phone515.status = "available" :=
  ⟨(search_default_limit_returns_available_only dbPhone515).1,
   (search_default_limit_returns_available_only dbPhone515).2 phone515
     (by decide)⟩

/-- C9: when the newsletter insert-or-ignore reports no engine error and the
email is already subscribed, the store is unchanged (the duplicate insert is
ignored) yet the welcome notification is still handed to the mail layer and
the response is success. -/
theorem newsletter_duplicate_still_attempts_welcome
    (db : DBState) (now : Nat) (b : NewsletterBody)
    (hv : newsletterValidation b = [])
    (hdup : 0 < subscriberCount db (b.email.getD "")) :
    postNewsletter db now b .ok =
      (db, .newsletterSuccess, [.welcome (b.email.getD "")]) := by
  have hany : db.email_subscribers.any
      (fun r => r.email == b.email.getD "") = true := by
    obtain ⟨a, ha, hpa⟩ := List.countP_pos_iff.mp hdup
    exact List.any_eq_true.mpr ⟨a, ha, hpa⟩
  unfold postNewsletter insertOrIgnoreSubscriber
  simp [hv, hany]

/-- Witness for C9 on a store already subscribing the sample email. -/
theorem newsletter_duplicate_still_attempts_welcome_witness :
    newsletterValidation sampleNewsletter = [] ∧
    0 < subscriberCount dbWithSubscriber (sampleNewsletter.email.getD "") ∧
    postNewsletter dbWithSubscriber 3 sampleNewsletter .ok =
      (dbWithSubscriber, .newsletterSuccess,
        [.welcome (sampleNewsletter.email.getD "")]) :=
  ⟨by decide, by decide,
   newsletter_duplicate_still_attempts_welcome dbWithSubscriber 3
     sampleNewsletter (by decide) (by decide)⟩

/-- C1: a consultation submission that passes validation and whose insert
succeeds answers success carrying the positive identifier generated by the
autoincrement counter, and the store gains exactly the row whose
relationship type, names, email, phone and budget equal the submitted
values, whose anniversary is null when that field was absent and whose
preferences is the empty string when that field was absent. -/
theorem consultation_success_creates_matching_row
    (db : DBState) (now : Nat) (b : ConsultationBody)
    (hv : consultationValidation b = [])
    (hid : 0 < db.nextConsultationId) :
    (postConsultation db now b .ok).2.1 =
      .consultationSuccess db.nextConsultationId ∧
    0 < db.nextConsultationId ∧
    (postConsultation db now b .ok).1.consultations =
      db.consultations ++ [newConsultationRow db now b] ∧
    (newConsultationRow db now b).id = db.nextConsultationId ∧
    (∀ s, b.relationshipType = some s →
      (newConsultationRow db now b).relationship_type = s) ∧
    (∀ s, b.names = some s → (newConsultationRow db now b).names = s) ∧
    (∀ s, b.email = some s → (newConsultationRow db now b).email = s) ∧
    (∀ s, b.phone = some s → (newConsultationRow db now b).phone = s) ∧
    (∀ s, b.budget = some s → (newConsultationRow db now b).budget = s) ∧
    (b.anniversary = none → (newConsultationRow db now b).anniversary = none) ∧
    (b.preferences = none → (newConsultationRow db now b).preferences = "") := by
  refine ⟨?_, hid, ?_, rfl, ?_, ?_, ?_, ?_, ?_, ?_, ?_⟩
  · unfold postConsultation
    simp [hv]
  · unfold postConsultation
    simp [hv]
  all_goals
    first
    | (intro s hs; simp [newConsultationRow, hs])
    | (intro hs; simp [newConsultationRow, jsOrNull, jsTruthy, hs])

/-- Witness for C1 at the spec's concrete scenario on a fresh store. -/
theorem consultation_success_creates_matching_row_witness :
    consultationValidation sampleBody = [] ∧
    0 < DBState.init.nextConsultationId ∧
    ((postConsultation DBState.init 7 sampleBody .ok).2.1 =
        .consultationSuccess DBState.init.nextConsultationId ∧
      0 < DBState.init.nextConsultationId ∧
      (postConsultation DBState.init 7 sampleBody .ok).1.consultations =
        DBState.init.consultations ++ [newConsultationRow DBState.init 7 sampleBody] ∧
      (newConsultationRow DBState.init 7 sampleBody).id =
        DBState.init.nextConsultationId ∧
      (∀ s, sampleBody.relationshipType = some s →
        (newConsultationRow DBState.init 7 sampleBody).relationship_type = s) ∧
      (∀ s, sampleBody.names = some s →
        (newConsultationRow DBState.init 7 sampleBody).names = s) ∧
      (∀ s, sampleBody.email = some s →
        (newConsultationRow DBState.init 7 sampleBody).email = s) ∧
      (∀ s, sampleBody.phone = some s →
        (newConsultationRow DBState.init 7 sampleBody).phone = s) ∧
      (∀ s, sampleBody.budget = some s →
        (newConsultationRow DBState.init 7 sampleBody).budget = s) ∧
      (sampleBody.anniversary = none →
        (newConsultationRow DBState.init 7 sampleBody).anniversary = none) ∧
      (sampleBody.preferences = none →
        (newConsultationRow DBState.init 7 sampleBody).preferences = "")) :=
  ⟨by decide, by decide,
   consultation_success_creates_matching_row DBState.init 7 sampleBody
     (by decide) (by decide)⟩

/-- C2: a consultation submission with a missing required field or a
malformed email is rejected with the 400 validation response listing every
violated field together, the store is unchanged and no notification is
handed to the mail layer, whatever the storage engine would have answered. -/
theorem consultation_invalid_reports_all_writes_nothing
    (db : DBState) (now : Nat) (b : ConsultationBody) (o : DbOutcome)
    (h : b.relationshipType = none ∨ b.names = none ∨
      emailFieldOk b.email = false ∨ b.phone = none ∨ b.budget = none) :
    postConsultation db now b o =
      (db, .validationFailure (consultationValidation b), []) ∧
    consultationValidation b ≠ [] ∧
    (ApiResponse.validationFailure (consultationValidation b)).statusCode = 400 ∧
    (b.relationshipType = none →
      "Relationship type is required" ∈ consultationValidation b) ∧
    (b.names = none → "Names are required" ∈ consultationValidation b) ∧
    (emailFieldOk b.email = false →
      "Valid email is required" ∈ consultationValidation b) ∧
    (b.phone = none → "Phone number is required" ∈ consultationValidation b) ∧
    (b.budget = none →
      "Budget selection is required" ∈ consultationValidation b) := by
  have m1 : b.relationshipType = none →
      "Relationship type is required" ∈ consultationValidation b := by
    intro hf
    unfold consultationValidation
    simp [hf, notEmptyFieldOk]
  have m2 : b.names = none → "Names are required" ∈ consultationValidation b := by
    intro hf
    unfold consultationValidation
    simp [hf, notEmptyFieldOk]
  have m3 : emailFieldOk b.email = false →
      "Valid email is required" ∈ consultationValidation b := by
    intro hf
    unfold consultationValidation
    simp [hf]
  have m4 : b.phone = none →
      "Phone number is required" ∈ consultationValidation b := by
    intro hf
    unfold consultationValidation
    simp [hf, notEmptyFieldOk]
  have m5 : b.budget = none →
      "Budget selection is required" ∈ consultationValidation b := by
    intro hf
    unfold consultationValidation
    simp [hf, notEmptyFieldOk]
  have hne : consultationValidation b ≠ [] := by
    rcases h with h | h | h | h | h
    · exact List.ne_nil_of_mem (m1 h)
    · exact List.ne_nil_of_mem (m2 h)
    · exact List.ne_nil_of_mem (m3 h)
    · exact List.ne_nil_of_mem (m4 h)
    · exact List.ne_nil_of_mem (m5 h)
  refine ⟨?_, hne, rfl, m1, m2, m3, m4, m5⟩
  unfold postConsultation
  simp [List.isEmpty_iff, hne]

/-- Witness for C2 at a body missing `names` and carrying a malformed
email. -/
theorem consultation_invalid_reports_all_writes_nothing_witness :
    (badBody.relationshipType = none ∨ badBody.names = none ∨
      emailFieldOk badBody.email = false ∨ badBody.phone = none ∨
      badBody.budget = none) ∧
    (postConsultation DBState.init 0 badBody .ok =
        (DBState.init, .validationFailure (consultationValidation badBody), []) ∧
      consultationValidation badBody ≠ [] ∧
      (ApiResponse.validationFailure (consultationValidation badBody)).statusCode = 400 ∧
      (badBody.relationshipType = none →
        "Relationship type is required" ∈ consultationValidation badBody) ∧
      (badBody.names = none →
        "Names are required" ∈ consultationValidation badBody) ∧
      (emailFieldOk badBody.email = false →
        "Valid email is required" ∈ consultationValidation badBody) ∧
      (badBody.phone = none →
        "Phone number is required" ∈ consultationValidation badBody) ∧
      (badBody.budget = none →
        "Budget selection is required" ∈ consultationValidation badBody)) :=
  ⟨by decide,
   consultation_invalid_reports_all_writes_nothing DBState.init 0 badBody .ok
     (by decide)⟩

/-- C10: the row created by a successful consultation submission has status
`pending`, the server-assigned id and the server clock as timestamps, and
the handler reads only the seven destructured body fields, so the response,
the stored state and the queued notifications are identical for any two
values of the remaining body keys (such as a client-supplied `status`, `id`
or `created_at`). -/
theorem consultation_row_pending_extras_ignored
    (db : DBState) (now : Nat) (b : ConsultationBody) (o : DbOutcome)
    (e1 e2 : List (String × String))
    (hv : consultationValidation b = []) :
    (newConsultationRow db now b).status = "pending" ∧
    (newConsultationRow db now b).id = db.nextConsultationId ∧
    (newConsultationRow db now b).created_at = now ∧
    (newConsultationRow db now b).updated_at = now ∧
    (postConsultation db now b .ok).1.consultations =
      db.consultations ++ [newConsultationRow db now b] ∧
    postConsultation db now { b with extra := e1 } o =
      postConsultation db now { b with extra := e2 } o := by
  refine ⟨rfl, rfl, rfl, rfl, ?_, rfl⟩
  unfold postConsultation
  simp [hv]

/-- Witness for C10 at the concrete scenario with two different sets of
extra body keys. -/
theorem consultation_row_pending_extras_ignored_witness :
    consultationValidation sampleBody = [] ∧
    ((newConsultationRow DBState.init 7 sampleBody).status = "pending" ∧
      (newConsultationRow DBState.init 7 sampleBody).id =
        DBState.init.nextConsultationId ∧
      (newConsultationRow DBState.init 7 sampleBody).created_at = 7 ∧
      (newConsultationRow DBState.init 7 sampleBody).updated_at = 7 ∧
      (postConsultation DBState.init 7 sampleBody .ok).1.consultations =
        DBState.init.consultations ++
          [newConsultationRow DBState.init 7 sampleBody] ∧
      postConsultation DBState.init 7
          { sampleBody with extra := [("status", "approved"), ("id", "99")] } .ok =
        postConsultation DBState.init 7
          { sampleBody with extra := [("created_at", "2031-01-01")] } .ok) :=
  ⟨by decide,
   consultation_row_pending_extras_ignored DBState.init 7 sampleBody .ok
     [("status", "approved"), ("id", "99")] [("created_at", "2031-01-01")]
     (by decide)⟩

/-- Helper: when a store respects the uniqueness constraint (at most one row
per email), an insert-or-ignore leaves exactly one row for that email. -/
theorem subscriberCount_insertOrIgnore (db : DBState) (now : Nat)
    (e src : String) (h : subscriberCount db e ≤ 1) :
    subscriberCount (insertOrIgnoreSubscriber db now e src) e = 1 := by
  unfold subscriberCount at h ⊢
  unfold insertOrIgnoreSubscriber
  by_cases hAny : db.email_subscribers.any (fun r => r.email == e) = true
  · have hpos : 0 < db.email_subscribers.countP (fun r => r.email == e) := by
      obtain ⟨a, ha, hpa⟩ := List.any_eq_true.mp hAny
      exact List.countP_pos_iff.mpr ⟨a, ha, hpa⟩
    simp only [hAny, if_true]
    omega
  · have h0 : db.email_subscribers.countP (fun r => r.email == e) = 0 := by
      rw [List.countP_eq_zero]
      intro a ha hpa
      exact hAny (List.any_eq_true.mpr ⟨a, ha, hpa⟩)
    simp only [hAny, if_false, Bool.false_eq_true]
    rw [List.countP_append, h0]
    simp

/-- C4: submitting the same well-formed newsletter email twice (on a store
respecting the uniqueness constraint) answers success both times and leaves
exactly one subscriber row for that email — the second insert is silently
ignored. -/
theorem newsletter_double_signup_one_row
    (db : DBState) (now1 now2 : Nat) (b : NewsletterBody)
    (hv : newsletterValidation b = [])
    (huniq : subscriberCount db (b.email.getD "") ≤ 1) :
    (postNewsletter db now1 b .ok).2.1 = .newsletterSuccess ∧
    (postNewsletter (postNewsletter db now1 b .ok).1 now2 b .ok).2.1 =
      .newsletterSuccess ∧
    subscriberCount
      (postNewsletter (postNewsletter db now1 b .ok).1 now2 b .ok).1
      (b.email.getD "") = 1 := by
  have hstate1 : (postNewsletter db now1 b .ok).1 =
      insertOrIgnoreSubscriber db now1 (b.email.getD "")
        (b.source.getD "newsletter") := by
    unfold postNewsletter
    simp [hv]
  have hc1 : subscriberCount (postNewsletter db now1 b .ok).1
      (b.email.getD "") = 1 := by
    rw [hstate1]
    exact subscriberCount_insertOrIgnore db now1 _ _ huniq
  have hstate2 :
      (postNewsletter (postNewsletter db now1 b .ok).1 now2 b .ok).1 =
        insertOrIgnoreSubscriber (postNewsletter db now1 b .ok).1 now2
          (b.email.getD "") (b.source.getD "newsletter") := by
    unfold postNewsletter
    simp [hv]
  refine ⟨?_, ?_, ?_⟩
  · unfold postNewsletter
    simp [hv]
  · unfold postNewsletter
    simp [hv]
  · rw [hstate2]
    exact subscriberCount_insertOrIgnore _ now2 _ _ hc1.le

/-- Witness for C4 on a fresh store. -/
theorem newsletter_double_signup_one_row_witness :
    newsletterValidation sampleNewsletter = [] ∧
    subscriberCount DBState.init (sampleNewsletter.email.getD "") ≤ 1 ∧
    ((postNewsletter DBState.init 1 sampleNewsletter .ok).2.1 =
        .newsletterSuccess ∧
      (postNewsletter (postNewsletter DBState.init 1 sampleNewsletter .ok).1 2
          sampleNewsletter .ok).2.1 = .newsletterSuccess ∧
      subscriberCount
        (postNewsletter (postNewsletter DBState.init 1 sampleNewsletter .ok).1
          2 sampleNewsletter .ok).1
        (sampleNewsletter.email.getD "") = 1) :=
  ⟨by decide, by decide,
   newsletter_double_signup_one_row DBState.init 1 2 sampleNewsletter
     (by decide) (by decide)⟩

/-- C6: on a store holding more than one consultation, the admin listing
with limit 1 and offset 0 returns exactly one row, and that row is a
consultation of the store whose creation time is maximal. -/
theorem admin_limit1_offset0_returns_most_recent
    (db : DBState) (h : 1 < db.consultations.length) :
    (adminConsultations db none (some 1) (some 0)).length = 1 ∧
    ∀ r ∈ adminConsultations db none (some 1) (some 0),
      r ∈ db.consultations ∧
      ∀ y ∈ db.consultations, y.created_at ≤ r.created_at := by
  have hperm : List.Perm (List.insertionSort createdDesc db.consultations)
      db.consultations := List.perm_insertionSort _ _
  have hsorted : List.Sorted createdDesc
      (List.insertionSort createdDesc db.consultations) :=
    List.sorted_insertionSort _ _
  have hq : adminConsultations db none (some 1) (some 0) =
      (List.insertionSort createdDesc db.consultations).take 1 := by
    unfold adminConsultations
    simp [jsTruthy]
  cases hs : List.insertionSort createdDesc db.consultations with
  | nil =>
      exfalso
      have hlen := hperm.length_eq
      rw [hs] at hlen
      simp at hlen
      omega
  | cons x t =>
      rw [hq, hs]
      refine ⟨by simp, ?_⟩
      intro r hr
      simp at hr
      subst hr
      have hx : r ∈ List.insertionSort createdDesc db.consultations := by
        rw [hs]
        exact List.mem_cons_self r t
      refine ⟨hperm.subset hx, ?_⟩
      intro y hy
      have hy2 : y ∈ r :: t := by
        rw [← hs]
        exact hperm.symm.subset hy
      rcases List.mem_cons.mp hy2 with rfl | hyt
      · exact le_refl _
      · have hsx : List.Sorted createdDesc (r :: t) := by
          rw [← hs]
          exact hsorted
        exact List.rel_of_sorted_cons hsx y hyt

/-- Witness for C6 on the two-row store, whose later row has creation time
9. -/
theorem admin_limit1_offset0_returns_most_recent_witness :
    1 < dbTwoConsultations.consultations.length ∧
    ((adminConsultations dbTwoConsultations none (some 1) (some 0)).length = 1 ∧
      ∀ r ∈ adminConsultations dbTwoConsultations none (some 1) (some 0),
        r ∈ dbTwoConsultations.consultations ∧
        ∀ y ∈ dbTwoConsultations.consultations,
          y.created_at ≤ r.created_at) :=
  ⟨by decide,
   admin_limit1_offset0_returns_most_recent dbTwoConsultations (by decide)⟩

/-- Helper: a `LIKE` pattern of the form `p ++ ['%']` where `p` holds no
wildcard character only matches strings whose case-folded characters start
with the case-folded `p`. -/
theorem likeMatch_no_wildcard_fold (p : List Char) :
    ∀ (s : List Char), (∀ c ∈ p, c ≠ '%' ∧ c ≠ '_') →
      likeMatchL (p ++ ['%']) s = true →
      ∃ t, s.map likeFold = p.map likeFold ++ t := by
  induction p with
  | nil => exact fun s _ _ => ⟨s.map likeFold, rfl⟩
  | cons c ps ih =>
      intro s hw h
      have hc := hw c (List.mem_cons_self c ps)
      rw [List.cons_append] at h
      cases s with
      | nil =>
          rw [likeMatchL] at h
          rw [if_neg hc.1] at h
          simp at h
      | cons d s2 =>
          rw [likeMatchL] at h
          rw [if_neg hc.1] at h
          rw [if_neg hc.2] at h
          have hsplit := (Bool.and_eq_true _ _).mp h
          obtain ⟨t, ht⟩ := ih s2
            (fun x hx => hw x (List.mem_cons_of_mem c hx)) hsplit.2
          refine ⟨t, ?_⟩
          simp only [List.map_cons, ht, List.cons_append]
          have hfold : likeFold c = likeFold d := eq_of_beq hsplit.1
          rw [hfold]

/-- Counterexample to C8 as stated: the filter string `5_5` contains the
SQL `LIKE` single-character wildcard `_`, so the stored number `515` is
returned although it does not start with the literal prefix `5_5`. -/
theorem search_area_code_prefix_counterexample :
    ¬ ∀ r ∈ searchNumbers dbPhone515 none (some "5_5") none,
        ∃ t, r.number.toList = "5_5".toList ++ t := by
  intro hall
  obtain ⟨t, ht⟩ := hall phone515 (by decide)
  rw [show phone515.number.toList = ['5', '1', '5'] from rfl,
      show "5_5".toList = ['5', '_', '5'] from rfl] at ht
  simp at ht

/-- C8 (amended): every row returned by the number search under an
area-code filter without `LIKE` wildcard characters has a number that
starts with the filter string up to the ASCII case folding that SQLite
`LIKE` performs. -/
theorem search_area_code_fold_prefix
    (db : DBState) (a : String) (pattern : Option String)
    (limit : Option Nat) (r : PhoneNumberRow)
    (hw : ∀ c ∈ a.toList, c ≠ '%' ∧ c ≠ '_')
    (hr : r ∈ searchNumbers db pattern (some a) limit) :
    ∃ t, r.number.toList.map likeFold = a.toList.map likeFold ++ t := by
  unfold searchNumbers at hr
  have hp := (List.mem_filter.1 (List.mem_of_mem_take hr)).2
  have hB := ((Bool.and_eq_true _ _).mp hp).2
  by_cases ha : jsTruthy (some a) = true
  · rw [if_pos ha] at hB
    have hcat : (a ++ "%").toList = a.toList ++ ['%'] := by
      show (a ++ "%").data = a.data ++ ['%']
      rw [String.data_append]
    unfold sqlLike at hB
    rw [Option.getD_some, hcat] at hB
    exact likeMatch_no_wildcard_fold a.toList r.number.toList hw hB
  · have hnil : a.toList = [] := by
      unfold jsTruthy at ha
      simp at ha
      rw [(String.isEmpty_iff a).mp ha]
      rfl
    rw [hnil]
    exact ⟨r.number.toList.map likeFold, by simp⟩

/-- Witness for the amended C8: the wildcard-free filter `51` returns the
row `515`, whose number does start with `51`. -/
theorem search_area_code_fold_prefix_witness :
    (∀ c ∈ "51".toList, c ≠ '%' ∧ c ≠ '_') ∧
    phone515 ∈ searchNumbers dbPhone515 none (some "51") none ∧
    ∃ t, phone515.number.toList.map likeFold =
      "51".toList.map likeFold ++ t :=
  ⟨by decide, by decide,
   search_area_code_fold_prefix dbPhone515 "51" none none phone515
     (by decide) (by decide)⟩
